import Mathlib

/-!
Shallow embedding of `bin/input_module_lastpass_event_reporting.py` (TA-lastpass).

Instants are modelled as microseconds since the Unix epoch (`Int`); Python floats
are modelled as exact decimals (`PyFloat`); dynamically typed Python values are
the inductive `PyVal`; code that can raise returns `Except PyExc`.  All
definitions are translated from the source module; the claim theorems are at the
end of the file.
-/

/-- Python exception classes that the embedded code can raise or handle. -/
inductive PyExc
  | valueError
  | typeError
  | attributeError
  | keyError
  | exc
  | ioError
deriving DecidableEq

/-- A Python float, represented exactly as `mant / 10 ^ exp`.  Every float this
module handles is a parsed decimal literal or a timestamp with microsecond
precision, so the decimal representation is exact. -/
structure PyFloat where
  mant : Int
  exp : Nat
deriving DecidableEq

/-- Truthiness and sign of a decimal: `mant / 10 ^ exp > 0` iff `mant > 0`. -/
def PyFloat.isPos (f : PyFloat) : Bool :=
  0 < f.mant

/-- `int()` on a float truncates toward zero. -/
def PyFloat.trunc (f : PyFloat) : Int :=
  f.mant.tdiv (10 ^ f.exp)

/-- The float value scaled to whole microseconds, rounding the sub-microsecond
part as `datetime.fromtimestamp` does (ties modelled half-up). -/
def PyFloat.toMicro (f : PyFloat) : Int :=
  if f.exp ≤ 6 then f.mant * 10 ^ (6 - f.exp)
  else (2 * f.mant + 10 ^ (f.exp - 6)).fdiv (2 * 10 ^ (f.exp - 6))

/-- Dynamically typed Python values as they occur in the module: `None`, ints,
floats (as exact decimals), strings, naive `datetime` objects (microseconds
since the epoch) and dicts. -/
inductive PyVal
  | none
  | int (n : Int)
  | float (f : PyFloat)
  | str (s : String)
  | dt (us : Int)
  | dict (entries : List (String × PyVal))

/-- Microseconds in one second. -/
def usPerSec : Int := 1000000

/-- Microseconds in one day. -/
def usPerDay : Int := 86400000000

/-- `STR_TCURR` constant of the module. -/
def STR_TCURR : String := "time_curr"

/-- `STR_TSTART` constant of the module. -/
def STR_TSTART : String := "time_start"

/-- `STR_TEND` constant of the module. -/
def STR_TEND : String := "time_end"

/-- Python truthiness of a value. -/
def pyTruthy : PyVal → Bool
  | .none => false
  | .int n => n != 0
  | .float f => f.mant != 0
  | .str s => !s.isEmpty
  | .dt _ => true
  | .dict l => !l.isEmpty

/-- Leading decimal digits of a character list, as values, plus the rest. -/
def takeDigits : List Char → List Nat × List Char
  | [] => ([], [])
  | c :: cs =>
    if c.isDigit then
      let (ds, r) := takeDigits cs
      ((c.toNat - 48) :: ds, r)
    else ([], c :: cs)

/-- Value of a digit list read most significant first. -/
def digitsVal (acc : Nat) : List Nat → Nat
  | [] => acc
  | d :: ds => digitsVal (acc * 10 + d) ds

/-- Parse a full character list as an unsigned decimal integer. -/
def parseNatDigits (cs : List Char) : Option Nat :=
  match takeDigits cs with
  | (ds, []) => if ds.isEmpty then Option.none else some (digitsVal 0 ds)
  | _ => Option.none

/-- Model of the `int(str)` builtin on a string: optional sign then digits. -/
def parseIntLit (s : String) : Option Int :=
  match s.toList with
  | '-' :: rest => (parseNatDigits rest).map (fun n => -(n : Int))
  | '+' :: rest => (parseNatDigits rest).map (fun n => (n : Int))
  | cs => (parseNatDigits cs).map (fun n => (n : Int))

/-- Decimal part of a float literal: digits, optional point, digits. -/
def parseFloatCore (cs : List Char) : Option PyFloat :=
  let (ip, r1) := takeDigits cs
  match r1 with
  | [] => if ip.isEmpty then Option.none else some ⟨(digitsVal 0 ip : Int), 0⟩
  | '.' :: r2 =>
    let (fp, r3) := takeDigits r2
    if r3.isEmpty ∧ ¬(ip.isEmpty ∧ fp.isEmpty) then
      some ⟨(digitsVal 0 ip * 10 ^ fp.length + digitsVal 0 fp : Nat), fp.length⟩
    else Option.none
  | _ => Option.none

/-- Model of the `float(str)` builtin: signed decimal literals.  Exponent,
`inf` and `nan` forms are not modelled; this program never produces them. -/
def parseFloat (s : String) : Option PyFloat :=
  match s.toList with
  | '-' :: rest => (parseFloatCore rest).map (fun f => ⟨-f.mant, f.exp⟩)
  | '+' :: rest => parseFloatCore rest
  | cs => parseFloatCore cs

/-- Left-pad a string with zeros to length `k`. -/
def padZeros (k : Nat) (s : String) : String :=
  String.mk (List.replicate (k - s.length) '0') ++ s

/-- Drop trailing decimal zeros of a decimal representation so that it renders
the way Python prints the float value. -/
def stripZeros : Nat → Int → Int × Nat
  | 0, m => (m, 0)
  | e + 1, m => if m % 10 = 0 then stripZeros e (m.tdiv 10) else (m, e + 1)

/-- Model of `str()` on a Python float: exact decimal rendering, an integral
value gaining a `.0` suffix. -/
def floatRepr (f : PyFloat) : String :=
  match stripZeros f.exp f.mant with
  | (m, 0) => toString m ++ ".0"
  | (m, e) =>
    let a := m.natAbs
    (if m < 0 then "-" else "") ++ toString (a / 10 ^ e) ++ "." ++
      padZeros e (toString (a % 10 ^ e))

/-- Day count of the proleptic Gregorian calendar date relative to 1970-01-01. -/
def daysFromCivil (y m d : Int) : Int :=
  let y2 := if m ≤ 2 then y - 1 else y
  let era := y2.fdiv 400
  let yoe := y2 - era * 400
  let mp := (m + 9) % 12
  let doy := (153 * mp + 2).fdiv 5 + d - 1
  let doe := yoe * 365 + yoe.fdiv 4 - yoe.fdiv 100 + doy
  era * 146097 + doe - 719468

/-- Inverse of `daysFromCivil`: year, month and day of a day number. -/
def civilFromDays (z0 : Int) : Int × Int × Int :=
  let z := z0 + 719468
  let era := z.fdiv 146097
  let doe := z - era * 146097
  let yoe := (doe - doe.fdiv 1460 + doe.fdiv 36524 - doe.fdiv 146096).fdiv 365
  let y := yoe + era * 400
  let doy := doe - (365 * yoe + yoe.fdiv 4 - yoe.fdiv 100)
  let mp := (5 * doy + 2).fdiv 153
  let d := doy - (153 * mp + 2).fdiv 5 + 1
  let m := mp + (if mp < 10 then 3 else -9)
  (y + (if m ≤ 2 then 1 else 0), m, d)

/-- Two-digit zero-padded rendering of a small nonnegative integer. -/
def pad2 (n : Int) : String :=
  if n < 10 then "0" ++ toString n else toString n

/-- Model of `str()` on a naive datetime: `YYYY-MM-DD HH:MM:SS[.ffffff]`. -/
def formatDatetime (t : Int) : String :=
  let secs := t.fdiv usPerSec
  let us := (t.fmod usPerSec).toNat
  let days := secs.fdiv 86400
  let sod := secs.fmod 86400
  let c := civilFromDays days
  padZeros 4 (toString c.1) ++ "-" ++ pad2 c.2.1 ++ "-" ++ pad2 c.2.2 ++ " " ++
    pad2 (sod.fdiv 3600) ++ ":" ++ pad2 (sod.fdiv 60 % 60) ++ ":" ++ pad2 (sod % 60) ++
    (if us = 0 then "" else "." ++ padZeros 6 (toString us))

/-- Model of `str()` on a Python value.  The items of a dict are elided: the
module only ever feeds such a string to numeric or strptime parsers, which
reject it from the opening brace. -/
def pyStrOf : PyVal → String
  | .none => "None"
  | .int n => toString n
  | .float q => floatRepr q
  | .str s => s
  | .dt t => formatDatetime t
  | .dict _ => "\x7b...\x7d"

/-- Model of the `int()` builtin: `Option.none` models a raised
`TypeError` or `ValueError`. -/
def pyIntOf : PyVal → Option Int
  | .int n => some n
  | .float f => some f.trunc
  | .str s => parseIntLit s
  | _ => Option.none

/-- Model of the `float()` builtin applied to a value. -/
def pyFloatOf : PyVal → Option PyFloat
  | .int n => some ⟨n, 0⟩
  | .float f => some f
  | .str s => parseFloat s
  | _ => Option.none

/-- `check_digit`: `int(val)` succeeds. -/
def check_digit (v : PyVal) : Bool :=
  (pyIntOf v).isSome

/-- `check_datetime`: the value is a datetime object. -/
def check_datetime : PyVal → Bool
  | .dt _ => true
  | _ => false

/-- `check_float`: `float(str(val)) > 0`. -/
def check_float (v : PyVal) : Bool :=
  match parseFloat (pyStrOf v) with
  | some f => f.isPos
  | Option.none => false

/-- Least representable datetime (0001-01-01) in microseconds. -/
def dtMinUs : Int := -62135596800000000

/-- Greatest representable datetime (9999-12-31 23:59:59.999999) in microseconds. -/
def dtMaxUs : Int := 253402300799999999

/-- `datetime.fromtimestamp` on an integer number of seconds; `Option.none`
models the overflow exception for out-of-range values. -/
def fromtimestamp_int (n : Int) : Option Int :=
  let us := n * usPerSec
  if dtMinUs ≤ us ∧ us ≤ dtMaxUs then some us else Option.none

/-- `datetime.fromtimestamp` on a float: the fractional seconds are rounded to
whole microseconds (ties modelled half-up). -/
def fromtimestamp_float (f : PyFloat) : Option Int :=
  let us := f.toMicro
  if dtMinUs ≤ us ∧ us ≤ dtMaxUs then some us else Option.none

/-- One or two leading digits, as `strptime` directives match them. -/
def take2 : List Char → Option (Nat × List Char)
  | [] => Option.none
  | c1 :: rest =>
    if c1.isDigit then
      match rest with
      | c2 :: rest2 =>
        if c2.isDigit then some ((c1.toNat - 48) * 10 + (c2.toNat - 48), rest2)
        else some (c1.toNat - 48, rest)
      | [] => some (c1.toNat - 48, [])
    else Option.none

/-- Exactly four leading digits, as the `%Y` directive matches them. -/
def take4 : List Char → Option (Nat × List Char)
  | c1 :: c2 :: c3 :: c4 :: rest =>
    if c1.isDigit ∧ c2.isDigit ∧ c3.isDigit ∧ c4.isDigit then
      some (((c1.toNat - 48) * 10 + (c2.toNat - 48)) * 100 +
        ((c3.toNat - 48) * 10 + (c4.toNat - 48)), rest)
    else Option.none
  | _ => Option.none

/-- Consume one expected literal character. -/
def expectChar (c : Char) : List Char → Option (List Char)
  | x :: rest => if x = c then some rest else Option.none
  | [] => Option.none

/-- Gregorian leap year test. -/
def isLeap (y : Int) : Bool :=
  (y % 4 == 0 && y % 100 != 0) || y % 400 == 0

/-- Length of a month. -/
def daysInMonth (y m : Int) : Int :=
  if m = 2 then (if isLeap y then 29 else 28)
  else if m = 4 ∨ m = 6 ∨ m = 9 ∨ m = 11 then 30
  else 31

/-- Model of `datetime.strptime(s, LASTPASS_TIMEFORMAT)` for the fixed format
`%Y-%m-%d %H:%M:%S`: parses and validates, returning microseconds since the
epoch, with `Option.none` for the raised `ValueError`. -/
def strptimeLP (s : String) : Option Int := do
  let cs := s.toList
  let (y, cs) ← take4 cs
  let cs ← expectChar '-' cs
  let (mo, cs) ← take2 cs
  let cs ← expectChar '-' cs
  let (d, cs) ← take2 cs
  let cs ← expectChar ' ' cs
  let (h, cs) ← take2 cs
  let cs ← expectChar ':' cs
  let (mi, cs) ← take2 cs
  let cs ← expectChar ':' cs
  let (sec, cs) ← take2 cs
  if cs.isEmpty ∧ 1 ≤ y ∧ y ≤ 9999 ∧ 1 ≤ mo ∧ mo ≤ 12 ∧ 1 ≤ d ∧
      (d : Int) ≤ daysInMonth y mo ∧ h ≤ 23 ∧ mi ≤ 59 ∧ sec ≤ 59 then
    some ((daysFromCivil y mo d * 86400 + h * 3600 + mi * 60 + sec) * usPerSec)
  else Option.none

/-- Model of `datetime.strftime(t, "%s.%f")`: epoch seconds, a point, and the
six-digit microsecond field. -/
def strftimeSecMicro (t : Int) : String :=
  toString (t.fdiv usPerSec) ++ "." ++ padZeros 6 (toString (t.fmod usPerSec).toNat)

/-- Evaluation of `e.message` inside an f-string: Python 3 exception objects
carry no `message` attribute, so the lookup itself raises `AttributeError`
while the original exception is being handled. -/
def msgAttr (_ : PyExc) : PyExc :=
  .attributeError

/-- `prepare_time_value`: classify the value as digit, datetime or float,
normalize it, and return `str(val)`.  The `except` block re-raises through an
f-string that reads `e.message`, so a failure surfaces as `AttributeError`
rather than the intended `IOError`. -/
def prepare_time_value (v : PyVal) : Except PyExc String :=
  let inner : Except PyExc PyVal :=
    if check_digit v then .ok v
    else
      match v with
      | .dt t => .ok (.float ⟨t, 6⟩)
      | _ =>
        match parseFloat (pyStrOf v) with
        | Option.none => .error .valueError
        | some f => if f.mant ≠ 0 then .ok (.float f) else .error .exc
  match inner with
  | .ok v2 => .ok (pyStrOf v2)
  | .error e => .error (msgAttr e)

/-- `save_checkpoint`: normalize the three time values and write them as one
record; `storeExc` models an exception raised by `helper.save_check_point`.
The `except` block re-raises through an f-string reading `e.message`, so every
failure surfaces as `AttributeError` rather than the intended `IOError`. -/
def save_checkpoint (time_curr time_start time_end : PyVal) (storeExc : Option PyExc) :
    Except PyExc (String × String × String) :=
  let inner : Except PyExc (String × String × String) := do
    let a ← prepare_time_value time_curr
    let b ← prepare_time_value time_start
    let c ← prepare_time_value time_end
    match storeExc with
    | some e => Except.error e
    | Option.none => Except.ok (a, b, c)
  match inner with
  | .ok p => .ok p
  | .error e => .error (msgAttr e)

/-- The `.get(key)` method call: `AttributeError` on a non-dict, the Python
`None` default on a missing key. -/
def pyGetMethod (v : PyVal) (k : String) : Except PyExc PyVal :=
  match v with
  | .dict l => .ok ((l.lookup k).getD .none)
  | _ => .error .attributeError

/-- Subscription `v[k]` with a string key: `KeyError` on a missing key,
`TypeError` on a non-dict. -/
def pySubscript (v : PyVal) (k : String) : Except PyExc PyVal :=
  match v with
  | .dict l =>
    match l.lookup k with
    | some x => .ok x
    | Option.none => .error .keyError
  | _ => .error .typeError

/-- One line of the checkpoint validation:
`if not (X and prepare_time_value(helper, X, name)): raise Exception(...)`. -/
def checkpointFieldOk (v : PyVal) : Except PyExc Unit :=
  if pyTruthy v then
    match prepare_time_value v with
    | .error e => .error e
    | .ok s => if s.isEmpty then .error .exc else .ok ()
  else .error .exc

/-- The try-block of `get_checkpoint` validating the three stored fields. -/
def validate_checkpoint (stored : PyVal) : Except PyExc Unit := do
  let c ← pyGetMethod stored STR_TCURR
  checkpointFieldOk c
  let s ← pySubscript stored STR_TSTART
  checkpointFieldOk s
  let e ← pySubscript stored STR_TEND
  checkpointFieldOk e

/-- The `except` handler of `get_checkpoint`: before returning `None` it logs
a warning whose f-string evaluates `state_payload.get(...)` three more times,
so the handler itself raises `AttributeError` when the stored value is not a
dict. -/
def checkpointWarning (stored : PyVal) : Except PyExc Unit :=
  match pyGetMethod stored STR_TCURR with
  | .error e => .error e
  | .ok _ =>
    match pyGetMethod stored STR_TSTART with
    | .error e => .error e
    | .ok _ =>
      match pyGetMethod stored STR_TEND with
      | .error e => .error e
      | .ok _ => .ok ()

/-- `get_checkpoint` as a function of the raw stored value: a bare digit or
float is upgraded to the legacy record shape; any other value is validated
field by field.  A validation failure lands in the `except` handler, whose
warning f-string calls `.get` on the stored value and therefore raises
`AttributeError` for non-dict values; when the handler survives (dict inputs)
it returns `None`, and the final line returns `None` on the success path
too. -/
def get_checkpoint (stored : PyVal) : Except PyExc PyVal :=
  if check_digit stored || check_float stored then
    .ok (.dict [(STR_TCURR, .none), (STR_TSTART, stored), (STR_TEND, .none)])
  else
    match validate_checkpoint stored with
    | .error _ =>
      match checkpointWarning stored with
      | .error e => .error e
      | .ok _ => .ok PyVal.none
    | .ok _ => .ok PyVal.none

/-- `get_time_dt`: falsy values are absent; digit, float and formatted
representations are converted in that order; the result must lie within the
last four years and not in the future relative to `now`. -/
def get_time_dt (time_val : PyVal) (now : Int) : Option Int :=
  if ¬ pyTruthy time_val then Option.none
  else
    let time_dt :=
      if check_digit time_val then (pyIntOf time_val).bind fromtimestamp_int
      else if check_float time_val then (pyFloatOf time_val).bind fromtimestamp_float
      else strptimeLP (pyStrOf time_val)
    match time_dt with
    | Option.none => Option.none
    | some t =>
      let diffDays := (now - t).fdiv usPerDay
      if diffDays > 365 * 4 ∨ diffDays < 0 then Option.none else some t

/-- `convert_time`: like `get_time_dt` but with no truthiness guard and no
range check. -/
def convert_time (time_val : PyVal) : Option Int :=
  if check_digit time_val then (pyIntOf time_val).bind fromtimestamp_int
  else if check_float time_val then (pyFloatOf time_val).bind fromtimestamp_float
  else strptimeLP (pyStrOf time_val)

/-- `(time_now - datetime.timedelta(days=1)).replace(microsecond=0)`:
24 hours back, sub-second part dropped. -/
def time_default (now : Int) : Int :=
  (now - usPerDay) - (now - usPerDay).emod usPerSec

/-- Subtraction `chk - t` where `t` is a datetime: only another datetime
supports it; every other left operand raises `TypeError`. -/
def pySubDt (chk : PyVal) (t : Int) : Except PyExc Int :=
  match chk with
  | .dt u => .ok (u - t)
  | _ => .error .typeError

/-- Lines 380-429 of `collect_events`: load the checkpoint (an exception from
`get_checkpoint` propagates, the call being outside every try block), then
derive the effective collection start from the operator `time_start` setting
and the checkpoint.  In the second branch the whole checkpoint dict is passed
to `get_time_dt`, which yields `None` and makes the later
`time_now - time_start` raise `TypeError`; with both inputs present,
`payload_checkpoint - time_start` raises `TypeError` (and even a successful
subtraction would, since comparing a timedelta with the int literal `0` is
unsupported in Python 3). -/
def planStart (setting stored : PyVal) (now : Int) : Except PyExc Int :=
  match get_checkpoint stored with
  | .error e => .error e
  | .ok payload_checkpoint =>
    match get_time_dt setting now with
    | Option.none =>
      if ¬ pyTruthy payload_checkpoint then .ok (time_default now)
      else
        match get_time_dt payload_checkpoint now with
        | some t => .ok t
        | Option.none => .error .typeError
    | some t =>
      if ¬ pyTruthy payload_checkpoint then .ok t
      else
        match pySubDt payload_checkpoint t with
        | .error e => .error e
        | .ok _ => .error .typeError

/-- `day_incr`: one-day chunks for spans under seven days, else three. -/
def day_incr (diffDays : Int) : Int :=
  if diffDays < 7 then 1 else 3

/-- Python `range(0, stop, step)` for positive step. -/
def pyRange (stop step : Int) : List Int :=
  if 0 < step ∧ 0 < stop then
    (List.range ((stop + step - 1).fdiv step).toNat).map (fun (j : Nat) => (j : Int) * step)
  else []

/-- The query windows of the collection loop: for each index, a window starting
`i` days after `time_start` and ending `day_incr` days later minus one second,
clamped to `now`. -/
def windows (time_start now : Int) : List (Int × Int) :=
  let diffDays := (now - time_start).fdiv usPerDay
  let k := day_incr diffDays
  (pyRange (diffDays + 1) k).map (fun i =>
    let s := time_start + i * usPerDay
    let e := s + k * usPerDay - usPerSec
    (s, if now < e then now else e))

/-- The chunk size used by the window loop, as a function of the two instants. -/
abbrev wStep (S now : Int) : Int :=
  day_incr ((now - S).fdiv usPerDay)

/-- Start derivation followed by window generation, as `collect_events`
performs them in sequence. -/
def collect_plan (setting stored : PyVal) (now : Int) :
    Except PyExc (Int × List (Int × Int)) :=
  match planStart setting stored now with
  | .error e => .error e
  | .ok t => .ok (t, windows t now)

/-- The per-record event timestamp: the `Time` field via `convert_time`,
rendered with `strftime("%s.%f")`, else the ingestion wall clock as a float. -/
def recordEventTime (nowUs : Int) (timeField : PyVal) : PyVal :=
  match convert_time timeField with
  | some t => .str (strftimeSecMicro t)
  | Option.none => .float ⟨nowUs, 6⟩

/-- One checkpoint write performed by the collection loop. -/
structure SaveArgs where
  tcurr : PyVal
  tstart : PyVal
  tend : PyVal

/-- The record loop of `collect_events`: emit each record, count it, and write
a checkpoint at every thousandth record; threads the running counter and the
current `event_time`, and propagates a failed checkpoint write. -/
def emitAux (tS nowUs : Int) (chkPtr : Nat) (eventTime : PyVal) :
    List (String × PyVal) →
    Except PyExc (List (String × PyVal) × List SaveArgs × PyVal)
  | [] => .ok ([], [], eventTime)
  | (evId, tf) :: rest =>
    let et := recordEventTime nowUs tf
    let c2 := chkPtr + 1
    if c2 % 1000 = 0 then
      match save_checkpoint et (.dt tS) (.dt nowUs) Option.none with
      | .error ex => .error ex
      | .ok _ =>
        match emitAux tS nowUs c2 et rest with
        | .error ex => .error ex
        | .ok (em, sv, l) => .ok ((evId, et) :: em, ⟨et, .dt tS, .dt nowUs⟩ :: sv, l)
    else
      match emitAux tS nowUs c2 et rest with
      | .error ex => .error ex
      | .ok (em, sv, l) => .ok ((evId, et) :: em, sv, l)

/-- The full per-window emission: the record loop followed by the final
checkpoint write guarded by the truthiness of `event_time`. -/
def emitLoop (tS nowUs : Int) (records : List (String × PyVal)) :
    Except PyExc (List (String × PyVal) × List SaveArgs) :=
  match emitAux tS nowUs 0 .none records with
  | .error ex => .error ex
  | .ok (em, sv, lastEt) =>
    if pyTruthy lastEt then
      match save_checkpoint lastEt (.dt tS) (.dt nowUs) Option.none with
      | .error ex => .error ex
      | .ok _ => .ok (em, sv ++ [⟨lastEt, .dt tS, .dt nowUs⟩])
    else .ok (em, sv)

/-- Modelled from the spec (`CheckpointMaybe`, mid-window part): counting on
from `chkPtr`, after every thousandth record one checkpoint write is made,
persisting that record's event time together with the window bounds.  This
definition follows the spec's words, to be compared with the loop translated
from the source. -/
def specMidSaves (tS nowUs : Int) : Nat → List PyVal → List SaveArgs
  | _, [] => []
  | c, et :: rest =>
    (if (c + 1) % 1000 = 0 then [⟨et, .dt tS, .dt nowUs⟩] else []) ++
      specMidSaves tS nowUs (c + 1) rest

/-- Modelled from the spec (`CheckpointMaybe`): the full per-window checkpoint
schedule — the mid-window writes plus, when the window emitted any record, one
final write persisting the last record's event time. -/
def specSaves (tS nowUs : Int) (ets : List PyVal) : List SaveArgs :=
  specMidSaves tS nowUs 0 ets ++
    (match ets.getLast? with
     | some e => [⟨e, .dt tS, .dt nowUs⟩]
     | Option.none => [])

/-- A decoded reporting response: the `status` field and the `data` mapping as
an ordered association of event ids to their `Time` fields. -/
structure LPResponse where
  status : String
  data : List (String × PyVal)

/-- Substring membership check, the `in` operator on strings. -/
def strContains (hay needle : String) : Bool :=
  (List.range (hay.length + 1)).any
    (fun i => (hay.toList.drop i).take needle.length == needle.toList)

/-- Outcome of one window of the collection loop. -/
inductive WindowOutcome
  | fatal (exitCode : Nat)
  | raised (e : PyExc)
  | ok (emitted : List (String × PyVal)) (saves : List SaveArgs)

/-- Lines 456-496 of `collect_events` for one decoded response: a status field
not containing `"OK"` terminates the invocation through `sys.exit(1)` before
any record is processed; otherwise the records are emitted and checkpointed,
any exception being re-raised. -/
def handleResponse (tS nowUs : Int) (resp : LPResponse) : WindowOutcome :=
  if ¬ strContains resp.status "OK" then .fatal 1
  else
    match emitLoop tS nowUs resp.data with
    | .error ex => .raised ex
    | .ok (em, sv) => .ok em sv

/-- Boolean success test for a normalization attempt. -/
def okB : Except PyExc String → Bool
  | .ok _ => true
  | .error _ => false
/-- Closed form of `get_checkpoint`: the legacy upgrade for bare numbers,
`None` for every other dict (the validation outcome being discarded), and a
propagated `AttributeError` for every other non-dict value, raised by the
`.get` calls in the warning f-string of the except handler. -/
theorem get_checkpoint_spec (stored : PyVal) :
    get_checkpoint stored =
      (if check_digit stored || check_float stored then
        .ok (PyVal.dict [(STR_TCURR, PyVal.none), (STR_TSTART, stored), (STR_TEND, PyVal.none)])
      else
        match stored with
        | .dict _ => .ok PyVal.none
        | _ => .error .attributeError) := by
  unfold get_checkpoint
  split
  · rfl
  · cases stored with
    | dict l => cases validate_checkpoint (.dict l) <;> rfl
    | none => rfl
    | int n => rfl
    | float f => rfl
    | str s => rfl
    | dt t => rfl

/-- A bare int is upgraded to the legacy record shape. -/
theorem get_checkpoint_int (n : Int) :
    get_checkpoint (.int n) =
      .ok (.dict [(STR_TCURR, PyVal.none), (STR_TSTART, .int n), (STR_TEND, PyVal.none)]) := rfl

/-- `get_time_dt` on a dict always yields `None`: an empty dict is falsy, and a
nonempty one fails the digit, float and strptime conversions. -/
theorem get_time_dt_dict (l : List (String × PyVal)) (now : Int) :
    get_time_dt (.dict l) now = Option.none := by
  cases l <;> rfl

/-- A returned (not raised) non-`None` result of `get_checkpoint` is the
legacy three-entry dict. -/
theorem get_checkpoint_ok_of_ne_none {stored c : PyVal}
    (h : get_checkpoint stored = .ok c) (hc : c ≠ PyVal.none) :
    c = .dict [(STR_TCURR, PyVal.none), (STR_TSTART, stored), (STR_TEND, PyVal.none)] := by
  have hs := get_checkpoint_spec stored
  rw [h] at hs
  by_cases hd : (check_digit stored || check_float stored) = true
  · rw [if_pos hd] at hs
    exact Except.ok.inj hs
  · rw [if_neg hd] at hs
    cases stored with
    | dict l => exact absurd (Except.ok.inj hs) hc
    | none => exact absurd hs (by simp)
    | int n => exact absurd hs (by simp)
    | float f => exact absurd hs (by simp)
    | str s => exact absurd hs (by simp)
    | dt t => exact absurd hs (by simp)

/-- Claim C1: the claim that `get_checkpoint` returns a stored mapping whose
`time_curr`, `time_start` and `time_end` fields are all present and
normalizable is violated by the code: such a record passes validation and is
then discarded, the final line returning `None` instead of the payload. -/
theorem claim_c1_valid_checkpoint_discarded :
    validate_checkpoint (.dict [(STR_TCURR, .str "1700000000.5"),
      (STR_TSTART, .str "1700000000.5"), (STR_TEND, .str "1700003600.5")]) = .ok () ∧
    get_checkpoint (.dict [(STR_TCURR, .str "1700000000.5"),
      (STR_TSTART, .str "1700000000.5"), (STR_TEND, .str "1700003600.5")]) = .ok PyVal.none :=
  ⟨rfl, rfl⟩

/-- Claim C8: the claim that `get_checkpoint` never raises is violated for
stored values of wrong type: a bare value accepted by the digit or float
check is upgraded to the legacy shape and a malformed dict yields `None`, but
every other value (`None`, a non-numeric string, a datetime) raises
`AttributeError` from the `.get` calls in the warning f-string of the except
handler, instead of the `return None` that handler intends. -/
theorem claim_c8_wrong_type_checkpoint_raises (stored : PyVal) :
    (get_checkpoint stored =
      (if check_digit stored || check_float stored then
        .ok (PyVal.dict [(STR_TCURR, PyVal.none), (STR_TSTART, stored), (STR_TEND, PyVal.none)])
      else
        match stored with
        | .dict _ => .ok PyVal.none
        | _ => .error .attributeError)) ∧
    get_checkpoint (.str "abc") = .error .attributeError ∧
    get_checkpoint PyVal.none = .error .attributeError :=
  ⟨get_checkpoint_spec stored, rfl, rfl⟩

/-- Claim C4: the claim describes a 24-hour default window when no operator
start and no checkpoint are present, but with no checkpoint the store yields
`None` and `get_checkpoint` raises `AttributeError` inside its warning
handler, so `collect_events` crashes before computing any start or window;
the would-be default plan would in any case hold two windows, the second a
degenerate one clamped to `now`, not the single claimed window. -/
theorem claim_c4_no_checkpoint_crashes (now : Int) :
    get_checkpoint PyVal.none = .error .attributeError ∧
    planStart PyVal.none PyVal.none now = .error .attributeError ∧
    windows (time_default 1704844800000000) 1704844800000000 =
      [(1704758400000000, 1704844799000000), (1704844800000000, 1704844800000000)] :=
  ⟨rfl, rfl, rfl⟩

/-- Claim C7, counterexample: a decoded response whose status is `"NOK"` is
not `"OK"`, yet the substring test fires for it, so the record is emitted and
a checkpoint written instead of the invocation terminating. -/
theorem claim_c7_counterexample :
    "NOK" ≠ "OK" ∧
    handleResponse 1704758400000000 1704844800000000 ⟨"NOK", [("e1", .str "1700000000")]⟩ =
      .ok [("e1", .str "1700000000.000000")]
        [⟨.str "1700000000.000000", .dt 1704758400000000, .dt 1704844800000000⟩] :=
  ⟨by decide, rfl⟩

/-- Claim C7, amended: a decoded response whose status does not contain
`"OK"` as a substring terminates the invocation through `sys.exit(1)` before
any record of the response is emitted and before any checkpoint write. -/
theorem claim_c7_amended (tS nowUs : Int) (resp : LPResponse)
    (h : strContains resp.status "OK" = false) :
    handleResponse tS nowUs resp = .fatal 1 := by
  unfold handleResponse
  rw [h]
  rfl

/-- Claim C7 amended, witness: status `"Fail"` aborts with exit code 1. -/
theorem claim_c7_amended_witness :
    strContains "Fail" "OK" = false ∧
    handleResponse 1704758400000000 1704844800000000
      ⟨"Fail", [("e1", .str "1700000000")]⟩ = .fatal 1 :=
  ⟨by decide, claim_c7_amended 1704758400000000 1704844800000000
    ⟨"Fail", [("e1", .str "1700000000")]⟩ (by decide)⟩

/-- Claim C9: whenever one of the three values fails normalization or the
underlying write raises, `save_checkpoint` does fail, but with
`AttributeError` — the handler evaluates `e.message`, which Python 3
exceptions do not carry — rather than the intended `IOError`. -/
theorem claim_c9_save_raises_attribute_error (tc ts te : PyVal) (storeExc : Option PyExc)
    (h : ¬(okB (prepare_time_value tc) = true ∧ okB (prepare_time_value ts) = true ∧
      okB (prepare_time_value te) = true ∧ storeExc = Option.none)) :
    save_checkpoint tc ts te storeExc = .error .attributeError ∧
    PyExc.attributeError ≠ PyExc.ioError := by
  refine ⟨?_, by decide⟩
  unfold save_checkpoint
  cases hc : prepare_time_value tc with
  | error e => rfl
  | ok a =>
    cases hs : prepare_time_value ts with
    | error e => rfl
    | ok b =>
      cases he : prepare_time_value te with
      | error e => rfl
      | ok c =>
        cases hx : storeExc with
        | some e => rfl
        | none =>
          exact absurd ⟨by simp [okB, hc], by simp [okB, hs], by simp [okB, he], hx⟩ h

/-- Claim C9, witness: an unparseable `time_curr` makes the save fail with
`AttributeError`. -/
theorem claim_c9_witness :
    ¬(okB (prepare_time_value (.str "abc")) = true ∧
      okB (prepare_time_value (.str "1700000000")) = true ∧
      okB (prepare_time_value (.str "1700003600")) = true ∧
      (Option.none : Option PyExc) = Option.none) ∧
    save_checkpoint (.str "abc") (.str "1700000000") (.str "1700003600") Option.none =
      .error .attributeError :=
  ⟨by decide,
    (claim_c9_save_raises_attribute_error (.str "abc") (.str "1700000000")
      (.str "1700003600") Option.none (by decide)).1⟩

/-- Claim C2: with no operator start and a checkpoint load that returns a
non-null value, the code does not resume from the checkpoint `time_start`: it
passes the whole checkpoint dict to `get_time_dt`, obtains `None`, and the
subsequent `time_now - time_start` raises `TypeError`, so the planner never
reaches window generation. -/
theorem claim_c2_checkpoint_resume_crashes (setting stored c : PyVal) (now : Int)
    (hs : get_time_dt setting now = Option.none)
    (hc : get_checkpoint stored = .ok c) (hcn : c ≠ PyVal.none) :
    collect_plan setting stored now = .error .typeError := by
  have hleg := get_checkpoint_ok_of_ne_none hc hcn
  subst hleg
  unfold collect_plan planStart
  rw [hc, hs]
  simp [pyTruthy, get_time_dt_dict]

/-- Claim C2, witness: a legacy integer checkpoint and no configured start. -/
theorem claim_c2_witness :
    get_time_dt PyVal.none 1704844800000000 = Option.none ∧
    get_checkpoint (.int 1700000000) =
      .ok (.dict [(STR_TCURR, PyVal.none), (STR_TSTART, .int 1700000000),
        (STR_TEND, PyVal.none)]) ∧
    (PyVal.dict [(STR_TCURR, PyVal.none), (STR_TSTART, .int 1700000000),
      (STR_TEND, PyVal.none)]) ≠ PyVal.none ∧
    collect_plan PyVal.none (.int 1700000000) 1704844800000000 = .error .typeError :=
  ⟨rfl, rfl, by simp, claim_c2_checkpoint_resume_crashes PyVal.none (.int 1700000000)
    (.dict [(STR_TCURR, PyVal.none), (STR_TSTART, .int 1700000000), (STR_TEND, PyVal.none)])
    1704844800000000 rfl rfl (by simp)⟩

/-- Claim C3: with an operator start and a returned non-null checkpoint, the
branch condition evaluates `payload_checkpoint - time_start`, a dict minus a
datetime, which raises `TypeError`; the planner never reaches window
generation, contrary to the claim, even when the checkpoint start is the
newer one. -/
theorem claim_c3_both_present_crashes (setting stored c : PyVal) (now t : Int)
    (hs : get_time_dt setting now = some t)
    (hc : get_checkpoint stored = .ok c) (hcn : c ≠ PyVal.none)
    (_hnewer : ∃ u, get_time_dt stored now = some u ∧ t < u) :
    collect_plan setting stored now = .error .typeError := by
  have hleg := get_checkpoint_ok_of_ne_none hc hcn
  subst hleg
  unfold collect_plan planStart
  rw [hc, hs]
  simp [pyTruthy, pySubDt]

/-- Claim C3, witness: operator start 2020-09-13, legacy checkpoint at the
newer 2023-11-14. -/
theorem claim_c3_witness :
    get_time_dt (.str "1600000000") 1704844800000000 = some 1600000000000000 ∧
    get_checkpoint (.int 1700000000) =
      .ok (.dict [(STR_TCURR, PyVal.none), (STR_TSTART, .int 1700000000),
        (STR_TEND, PyVal.none)]) ∧
    (PyVal.dict [(STR_TCURR, PyVal.none), (STR_TSTART, .int 1700000000),
      (STR_TEND, PyVal.none)]) ≠ PyVal.none ∧
    (∃ u, get_time_dt (.int 1700000000) 1704844800000000 = some u ∧
      1600000000000000 < u) ∧
    collect_plan (.str "1600000000") (.int 1700000000) 1704844800000000 =
      .error .typeError :=
  ⟨rfl, rfl, by simp,
    ⟨1700000000000000, rfl, by norm_num⟩,
    claim_c3_both_present_crashes (.str "1600000000") (.int 1700000000)
      (.dict [(STR_TCURR, PyVal.none), (STR_TSTART, .int 1700000000), (STR_TEND, PyVal.none)])
      1704844800000000 1600000000000000 rfl rfl (by simp)
      ⟨1700000000000000, rfl, by norm_num⟩⟩

/-- Claim C5: chunks are one day for spans under seven days and three days
otherwise, and a ten-day span yields four windows of three, three, three and
one days, each ending one second before the next begins, the final upper
bound clamped to `now`. -/
theorem claim_c5_chunking (S now : Int) (h10 : now = S + 10 * usPerDay) :
    (∀ dd : Int, dd < 7 → day_incr dd = 1) ∧
    (∀ dd : Int, 7 ≤ dd → day_incr dd = 3) ∧
    day_incr ((now - S).fdiv usPerDay) = 3 ∧
    windows S now =
      [(S, S + 3 * usPerDay - usPerSec),
       (S + 3 * usPerDay, S + 6 * usPerDay - usPerSec),
       (S + 6 * usPerDay, S + 9 * usPerDay - usPerSec),
       (S + 9 * usPerDay, S + 10 * usPerDay)] := by
  subst h10
  have hdd : (S + 10 * usPerDay - S).fdiv usPerDay = 10 := by
    have h2 : S + 10 * usPerDay - S = 10 * usPerDay := by ring
    rw [h2, Int.mul_fdiv_cancel]
    norm_num [usPerDay]
  refine ⟨fun dd h => by simp [day_incr, h],
    fun dd h => by unfold day_incr; rw [if_neg (by omega)],
    by rw [hdd]; rfl, ?_⟩
  unfold windows
  rw [hdd]
  dsimp only
  have hk : day_incr 10 = 3 := rfl
  rw [hk]
  have hr : pyRange (10 + 1) 3 = [0, 3, 6, 9] := by decide
  rw [hr]
  simp only [List.map, usPerDay, usPerSec]
  norm_num
  split_ifs <;> simp_all <;> omega

/-- Claim C5, witness: a ten-day span starting at the epoch. -/
theorem claim_c5_witness :
    day_incr 5 = 1 ∧ day_incr 10 = 3 ∧
    day_incr (((864000000000 : Int) - 0).fdiv usPerDay) = 3 ∧
    windows 0 864000000000 =
      [(0, 0 + 3 * usPerDay - usPerSec),
       (0 + 3 * usPerDay, 0 + 6 * usPerDay - usPerSec),
       (0 + 6 * usPerDay, 0 + 9 * usPerDay - usPerSec),
       (0 + 9 * usPerDay, 0 + 10 * usPerDay)] := by
  have h := claim_c5_chunking 0 864000000000 (by norm_num [usPerDay])
  exact ⟨h.1 5 (by norm_num), h.2.1 10 (by norm_num), h.2.2.1, h.2.2.2⟩

/-- The window list written as a map over consecutive chunk indices. -/
theorem windows_eq (S now : Int) (hdd0 : 0 ≤ (now - S).fdiv usPerDay) :
    windows S now =
      (List.range (((now - S).fdiv usPerDay + 1 + wStep S now - 1).fdiv (wStep S now)).toNat).map
        (fun (j : ℕ) => (S + ((j : Int) * wStep S now) * usPerDay,
          if now < S + ((j : Int) * wStep S now) * usPerDay + wStep S now * usPerDay - usPerSec
          then now
          else S + ((j : Int) * wStep S now) * usPerDay + wStep S now * usPerDay - usPerSec)) := by
  have hk1 : 1 ≤ day_incr ((now - S).fdiv usPerDay) := by
    unfold day_incr
    split <;> omega
  simp only [windows, pyRange, wStep]
  rw [if_pos ⟨by omega, by omega⟩, List.map_map]
  rfl

/-- Claim C10: when the effective start is defined and not after `now`, every
query window satisfies `from ≤ to` and `to ≤ now`, and successive windows are
strictly increasing without overlap: each window ends before the next begins. -/
theorem claim_c10_window_invariants (S now : Int) (h : S ≤ now) :
    (∀ w ∈ windows S now, w.1 ≤ w.2 ∧ w.2 ≤ now) ∧
    (windows S now).Pairwise (fun a b => a.2 < b.1) := by
  have hD : (0:Int) < usPerDay := by norm_num [usPerDay]
  have hsec : (0:Int) < usPerSec := by norm_num [usPerSec]
  have hdd0 : 0 ≤ (now - S).fdiv usPerDay := Int.fdiv_nonneg (by omega) (le_of_lt hD)
  have hddle : ((now - S).fdiv usPerDay) * usPerDay ≤ now - S := by
    have h2 := Int.fmod_add_fdiv (now - S) usPerDay
    have h3 := Int.fmod_nonneg' (now - S) hD
    have h4 : ((now - S).fdiv usPerDay) * usPerDay = usPerDay * ((now - S).fdiv usPerDay) :=
      mul_comm _ _
    linarith
  have hk13 : wStep S now = 1 ∨ wStep S now = 3 := by
    unfold wStep day_incr
    split
    · exact Or.inl rfl
    · exact Or.inr rfl
  have hk1 : 1 ≤ wStep S now := by rcases hk13 with h2 | h2 <;> omega
  have hkd : usPerSec ≤ wStep S now * usPerDay := by
    rcases hk13 with h2 | h2 <;> rw [h2] <;> norm_num [usPerSec, usPerDay]
  have hcnt : ∀ j : ℕ,
      j < (((now - S).fdiv usPerDay + 1 + wStep S now - 1).fdiv (wStep S now)).toNat →
      (j : Int) * wStep S now ≤ (now - S).fdiv usPerDay := by
    intro j hj
    have hF : ((now - S).fdiv usPerDay + 1 + wStep S now - 1).fdiv (wStep S now) * wStep S now ≤
        (now - S).fdiv usPerDay + 1 + wStep S now - 1 := by
      have h2 := Int.fmod_add_fdiv ((now - S).fdiv usPerDay + 1 + wStep S now - 1) (wStep S now)
      have h3 := Int.fmod_nonneg' ((now - S).fdiv usPerDay + 1 + wStep S now - 1)
        (by omega : (0:Int) < wStep S now)
      have h4 : ((now - S).fdiv usPerDay + 1 + wStep S now - 1).fdiv (wStep S now) * wStep S now =
          wStep S now * (((now - S).fdiv usPerDay + 1 + wStep S now - 1).fdiv (wStep S now)) :=
        mul_comm _ _
      linarith
    have hF0 : 0 ≤ ((now - S).fdiv usPerDay + 1 + wStep S now - 1).fdiv (wStep S now) :=
      Int.fdiv_nonneg (by omega) (by omega)
    have hj3 : (j : Int) + 1 ≤
        ((now - S).fdiv usPerDay + 1 + wStep S now - 1).fdiv (wStep S now) := by omega
    have h5 : ((j : Int) + 1) * wStep S now ≤
        ((now - S).fdiv usPerDay + 1 + wStep S now - 1).fdiv (wStep S now) * wStep S now :=
      mul_le_mul_of_nonneg_right hj3 (by omega)
    nlinarith
  have hmemnow : ∀ j : ℕ,
      j < (((now - S).fdiv usPerDay + 1 + wStep S now - 1).fdiv (wStep S now)).toNat →
      S + ((j : Int) * wStep S now) * usPerDay ≤ now := by
    intro j hj
    have hmul : ((j : Int) * wStep S now) * usPerDay ≤ ((now - S).fdiv usPerDay) * usPerDay :=
      mul_le_mul_of_nonneg_right (hcnt j hj) (le_of_lt hD)
    linarith
  rw [windows_eq S now hdd0]
  constructor
  · intro w hw
    rcases List.mem_map.1 hw with ⟨j, hj, rfl⟩
    have hjlt := List.mem_range.1 hj
    have hnow := hmemnow j hjlt
    constructor
    · dsimp only
      split_ifs with hc
      · exact hnow
      · nlinarith
    · dsimp only
      split_ifs with hc
      · exact le_refl now
      · exact le_of_not_lt hc
  · rw [List.pairwise_map]
    refine (List.pairwise_lt_range _).imp_of_mem ?_
    intro a b ha hb hab
    have hbnow := hmemnow b (List.mem_range.1 hb)
    have hstep : ((a : Int) + 1) * wStep S now ≤ (b : Int) * wStep S now := by
      have hab2 : (a : Int) + 1 ≤ (b : Int) := by exact_mod_cast hab
      exact mul_le_mul_of_nonneg_right hab2 (by omega)
    dsimp only
    split_ifs with hc
    · exfalso
      nlinarith
    · nlinarith

/-- Claim C10, witness: the one-day plan at 2024-01-10. -/
theorem claim_c10_witness :
    (∀ w ∈ windows 1704758400000000 1704844800000000, w.1 ≤ w.2 ∧ w.2 ≤ 1704844800000000) ∧
    (windows 1704758400000000 1704844800000000).Pairwise (fun a b => a.2 < b.1) :=
  claim_c10_window_invariants 1704758400000000 1704844800000000 (by norm_num)

/-- Normalizing a datetime value always succeeds, yielding its timestamp. -/
theorem prepare_dt_ok (t : Int) :
    prepare_time_value (.dt t) = .ok (floatRepr ⟨t, 6⟩) := rfl

/-- A checkpoint write succeeds when the current time value normalizes, the
window bounds being datetimes. -/
theorem save_ok (v : PyVal) (a b : Int) (h : okB (prepare_time_value v) = true) :
    save_checkpoint v (.dt a) (.dt b) Option.none =
      .ok (((prepare_time_value v).toOption.getD ""), floatRepr ⟨a, 6⟩, floatRepr ⟨b, 6⟩) := by
  cases hp : prepare_time_value v with
  | error e => simp [okB, hp] at h
  | ok s =>
    unfold save_checkpoint
    rw [hp]
    rfl

/-- The per-record event time is always truthy for a nonzero wall clock: the
strftime rendering is a nonempty string and the fallback float is nonzero. -/
theorem recordEventTime_truthy (now : Int) (h0 : now ≠ 0) (tf : PyVal) :
    pyTruthy (recordEventTime now tf) = true := by
  unfold recordEventTime
  cases hct : convert_time tf with
  | some t =>
    have hne : strftimeSecMicro t ≠ "" := by
      intro hcontra
      have hlen := congrArg String.length hcontra
      simp [strftimeSecMicro, String.length_append] at hlen
      exact absurd hlen.1.2 (by decide)
    have hie : (strftimeSecMicro t).isEmpty = false := by
      rw [Bool.eq_false_iff]
      intro hemp
      exact hne ((String.isEmpty_iff _).1 hemp)
    simp [pyTruthy, hie]
  | none =>
    simp [pyTruthy, bne, h0]

/-- Length of the mid-window schedule: one write per multiple of one thousand
crossed by the running counter. -/
theorem specMidSaves_length (tS now : Int) :
    ∀ (ets : List PyVal) (c : Nat),
      (specMidSaves tS now c ets).length = (c + ets.length) / 1000 - c / 1000 := by
  intro ets
  induction ets with
  | nil => intro c; simp [specMidSaves]
  | cons et rest ih =>
    intro c
    simp only [specMidSaves, List.length_append, List.length_cons, ih (c + 1)]
    by_cases hs : (c + 1) % 1000 = 0
    · rw [if_pos hs]
      simp only [List.length_cons, List.length_nil]
      omega
    · rw [if_neg hs]
      simp only [List.length_nil]
      omega

/-- The k-th entry of the mid-window schedule is the write triggered by the
record at which the counter crossed its (k+1)-th multiple of one thousand,
and it carries exactly that record's event time. -/
theorem specMidSaves_getElem (tS now : Int) :
    ∀ (ets : List PyVal) (c k : Nat), k < (c + ets.length) / 1000 - c / 1000 →
      (specMidSaves tS now c ets)[k]? =
        some ⟨ets.getD (1000 * (c / 1000 + k + 1) - c - 1) PyVal.none, .dt tS, .dt now⟩ := by
  intro ets
  induction ets with
  | nil =>
    intro c k hk
    simp only [List.length_nil, Nat.add_zero] at hk
    omega
  | cons et rest ih =>
    intro c k hk
    by_cases hs : (c + 1) % 1000 = 0
    · cases k with
      | zero =>
        simp only [specMidSaves, if_pos hs, List.singleton_append]
        have hidx : 1000 * (c / 1000 + 0 + 1) - c - 1 = 0 := by omega
        rw [hidx, List.getD_cons_zero, List.getElem?_cons_zero]
      | succ k2 =>
        simp only [specMidSaves, if_pos hs, List.singleton_append, List.getElem?_cons_succ]
        have hb : k2 < (c + 1 + rest.length) / 1000 - (c + 1) / 1000 := by
          simp only [List.length_cons] at hk
          omega
        rw [ih (c + 1) k2 hb]
        have hj : 1000 * (c / 1000 + (k2 + 1) + 1) - c - 1 =
            (1000 * ((c + 1) / 1000 + k2 + 1) - (c + 1) - 1) + 1 := by omega
        rw [hj, List.getD_cons_succ]
    · simp only [specMidSaves, if_neg hs, List.nil_append]
      have hb : k < (c + 1 + rest.length) / 1000 - (c + 1) / 1000 := by
        simp only [List.length_cons] at hk
        omega
      rw [ih (c + 1) k hb]
      have hj : 1000 * (c / 1000 + k + 1) - c - 1 =
          (1000 * ((c + 1) / 1000 + k + 1) - (c + 1) - 1) + 1 := by omega
      rw [hj, List.getD_cons_succ]

/-- Every entry of the mid-window schedule carries the window bounds. -/
theorem specMidSaves_mem (tS now : Int) :
    ∀ (ets : List PyVal) (c : Nat) (s : SaveArgs), s ∈ specMidSaves tS now c ets →
      s.tstart = .dt tS ∧ s.tend = .dt now := by
  intro ets
  induction ets with
  | nil => intro c s hs; simp [specMidSaves] at hs
  | cons et rest ih =>
    intro c s hs
    by_cases h1 : (c + 1) % 1000 = 0
    · simp only [specMidSaves, if_pos h1, List.singleton_append, List.mem_cons] at hs
      rcases hs with rfl | hs
      · exact ⟨rfl, rfl⟩
      · exact ih (c + 1) s hs
    · simp only [specMidSaves, if_neg h1, List.nil_append] at hs
      exact ih (c + 1) s hs

/-- The record loop equals the mid-window schedule of the spec: each write is
made exactly at a thousandth record and carries that record's event time,
while the threaded `event_time` ends as the last record's event time. -/
theorem emitAux_spec (tS now : Int) :
    ∀ (rs : List (String × PyVal)) (c : Nat) (e0 : PyVal),
      (∀ r ∈ rs, okB (prepare_time_value (recordEventTime now r.2)) = true) →
      ∃ em,
        emitAux tS now c e0 rs =
          .ok (em, specMidSaves tS now c (rs.map (fun r => recordEventTime now r.2)),
            (rs.map (fun r => recordEventTime now r.2)).getLastD e0) := by
  intro rs
  induction rs with
  | nil =>
    intro c e0 _
    exact ⟨[], rfl⟩
  | cons r rest ih =>
    intro c e0 hok
    obtain ⟨evId, tf⟩ := r
    obtain ⟨em, hrec⟩ :=
      ih (c + 1) (recordEventTime now tf) (fun x hx => hok x (List.mem_cons_of_mem _ hx))
    have hokr := hok (evId, tf) (List.mem_cons_self _ _)
    refine ⟨(evId, recordEventTime now tf) :: em, ?_⟩
    by_cases hs : (c + 1) % 1000 = 0
    · unfold emitAux
      rw [if_pos hs, save_ok _ _ _ hokr, hrec, List.map_cons, List.getLastD_cons]
      simp [specMidSaves, hs]
    · unfold emitAux
      rw [if_neg hs, hrec, List.map_cons, List.getLastD_cons]
      simp [specMidSaves, hs]

/-- Claim C6: within one window the loop writes a checkpoint after every
thousandth emitted record and once more after the last record — the write
list is exactly the schedule of the spec, so 2500 records yield three writes
and an empty window none; the k-th mid-window write persists the event time
of the (1000 (k+1))-th record as `time_curr`, the final write that of the
last record, and every write carries the effective start and `now` as window
bounds. -/
theorem claim_c6_checkpoint_writes (tS now : Int) (rs : List (String × PyVal)) (h0 : 0 < now)
    (hok : ∀ r ∈ rs, okB (prepare_time_value (recordEventTime now r.2)) = true) :
    ∃ em, emitLoop tS now rs =
        .ok (em, specSaves tS now (rs.map (fun r => recordEventTime now r.2))) ∧
      (specSaves tS now (rs.map (fun r => recordEventTime now r.2))).length =
        rs.length / 1000 + (if rs.length = 0 then 0 else 1) ∧
      (rs.length = 2500 →
        (specSaves tS now (rs.map (fun r => recordEventTime now r.2))).length = 3) ∧
      (rs = [] → specSaves tS now (rs.map (fun r => recordEventTime now r.2)) = []) ∧
      (∀ k, k < rs.length / 1000 →
        (specSaves tS now (rs.map (fun r => recordEventTime now r.2)))[k]? =
          some ⟨(rs.map (fun r => recordEventTime now r.2)).getD (1000 * k + 999) PyVal.none,
            .dt tS, .dt now⟩) ∧
      (∀ s ∈ specSaves tS now (rs.map (fun r => recordEventTime now r.2)),
        s.tstart = .dt tS ∧ s.tend = .dt now) ∧
      (rs ≠ [] →
        (specSaves tS now (rs.map (fun r => recordEventTime now r.2))).getLast? =
          some ⟨(rs.map (fun r => recordEventTime now r.2)).getLastD PyVal.none,
            .dt tS, .dt now⟩) := by
  obtain ⟨em, hrec⟩ := emitAux_spec tS now rs 0 PyVal.none hok
  by_cases hrs : rs = []
  · subst hrs
    exact ⟨[], rfl, rfl, by intro h25; exact absurd h25 (by decide), fun _ => rfl,
      by intro k hk; simp at hk, by intro s hs; simp [specSaves, specMidSaves] at hs,
      fun h => absurd rfl h⟩
  · obtain ⟨rl, hq⟩ : ∃ rl, rs.getLast? = some rl := by
      cases hq2 : rs.getLast? with
      | none => exact absurd (List.getLast?_eq_none_iff.1 hq2) hrs
      | some rl => exact ⟨rl, rfl⟩
    have hmemrl : rl ∈ rs := List.mem_of_getLast?_eq_some hq
    have hql : (rs.map (fun r => recordEventTime now r.2)).getLast? =
        some (recordEventTime now rl.2) := by
      rw [List.getLast?_map, hq]
      rfl
    have hlast : (rs.map (fun r => recordEventTime now r.2)).getLastD PyVal.none =
        recordEventTime now rl.2 := by
      rw [List.getLastD_eq_getLast?, hql]
      rfl
    have hspec : specSaves tS now (rs.map (fun r => recordEventTime now r.2)) =
        specMidSaves tS now 0 (rs.map (fun r => recordEventTime now r.2)) ++
          [⟨recordEventTime now rl.2, .dt tS, .dt now⟩] := by
      unfold specSaves
      rw [hql]
    have htr : pyTruthy ((rs.map (fun r => recordEventTime now r.2)).getLastD PyVal.none) =
        true := by
      rw [hlast]
      exact recordEventTime_truthy now (by omega) rl.2
    have hoklast : okB (prepare_time_value
        ((rs.map (fun r => recordEventTime now r.2)).getLastD PyVal.none)) = true := by
      rw [hlast]
      exact hok rl hmemrl
    have hn : rs.length ≠ 0 := fun hz => hrs (List.length_eq_zero.1 hz)
    have hmidlen : (specMidSaves tS now 0
        (rs.map (fun r => recordEventTime now r.2))).length = rs.length / 1000 := by
      rw [specMidSaves_length]
      simp [List.length_map]
    have hlen : (specSaves tS now (rs.map (fun r => recordEventTime now r.2))).length =
        rs.length / 1000 + 1 := by
      rw [hspec, List.length_append, hmidlen]
      rfl
    refine ⟨em, ?_, ?_, ?_, ?_, ?_, ?_, ?_⟩
    · unfold emitLoop
      rw [hrec]
      dsimp only
      rw [htr, if_pos rfl, save_ok _ _ _ hoklast, hspec, hlast]
    · rw [hlen, if_neg hn]
    · intro h25
      rw [hlen, h25]
    · intro hz
      exact absurd hz hrs
    · intro k hk
      rw [hspec, List.getElem?_append_left (by rw [hmidlen]; exact hk)]
      have := specMidSaves_getElem tS now (rs.map (fun r => recordEventTime now r.2)) 0 k
        (by simp only [List.length_map, Nat.zero_add, Nat.zero_div, Nat.sub_zero]; exact hk)
      rw [this]
      have hidx : 1000 * (0 / 1000 + k + 1) - 0 - 1 = 1000 * k + 999 := by omega
      rw [hidx]
    · intro s hs
      rw [hspec] at hs
      rcases List.mem_append.1 hs with h1 | h1
      · exact specMidSaves_mem tS now _ 0 s h1
      · rcases List.mem_singleton.1 h1 with rfl
        exact ⟨rfl, rfl⟩
    · intro _
      rw [hspec, List.getLast?_concat, hlast]

/-- Claim C6, witness: a window of 2500 records produces three checkpoint
writes. -/
theorem claim_c6_witness :
    (∀ r ∈ List.replicate 2500 ("e", PyVal.str "x"),
      okB (prepare_time_value (recordEventTime 1704844800000000 r.2)) = true) ∧
    ∃ em,
      emitLoop 1704758400000000 1704844800000000
        (List.replicate 2500 ("e", PyVal.str "x")) =
        .ok (em, specSaves 1704758400000000 1704844800000000
          ((List.replicate 2500 ("e", PyVal.str "x")).map
            (fun r => recordEventTime 1704844800000000 r.2))) ∧
      (specSaves 1704758400000000 1704844800000000
        ((List.replicate 2500 ("e", PyVal.str "x")).map
          (fun r => recordEventTime 1704844800000000 r.2))).length = 3 := by
  have hok : ∀ r ∈ List.replicate 2500 (("e", PyVal.str "x")),
      okB (prepare_time_value (recordEventTime 1704844800000000 r.2)) = true := by
    intro r hr
    rw [List.eq_of_mem_replicate hr]
    decide
  obtain ⟨em, h1, _, h3, _, _, _, _⟩ := claim_c6_checkpoint_writes 1704758400000000
    1704844800000000 (List.replicate 2500 ("e", PyVal.str "x")) (by norm_num) hok
  exact ⟨hok, em, h1, h3 (by rw [List.length_replicate])⟩
